import Mathlib

/-!
Shallow embedding of the PayPal order-orchestration code
(src/lib/paypal.ts together with the Next.js API routes for order
creation and webhook ingestion).  Network effects are passed
explicitly: every outbound HTTP call is represented by an
`HttpOutcome` value chosen by the environment, and the module-level
token cache is threaded as explicit state.  All functions are total
and computable, so concrete executions can be evaluated by `decide`
or `rfl`.
-/

namespace Paypal

/-- Outcome of one outbound HTTP call as the calling code observes it:
a parsed successful body, a non-success HTTP status code, i.e.
`response.ok` is false, or a thrown transport error, i.e. the `fetch`
promise rejected. -/
inductive HttpOutcome (α : Type) where
  | ok (body : α)
  | httpError (status : Nat)
  | transportFailure
deriving Repr, DecidableEq

/-- PayPal client configuration: `PAYPAL_CLIENT_ID` and
`PAYPAL_CLIENT_SECRET`, each read from the environment with the empty
string as default when unset, exactly as paypal.ts does. -/
structure Config where
  clientId : String
  clientSecret : String
deriving Repr, DecidableEq

/-- Cached token record, mirroring `interface TokenCache` of paypal.ts:
the token string, its reported lifetime in seconds, and the
`Date.now()` timestamp in milliseconds at which it was stored. -/
structure TokenCache where
  access_token : String
  expires_in : Int
  created_at : Int
deriving Repr, DecidableEq

/-- Parsed body of a successful token-endpoint response
(`access_token` and `expires_in` are the only fields the code uses). -/
structure TokenResponse where
  access_token : String
  expires_in : Int
deriving Repr, DecidableEq

/-- Result of `getAccessToken` as its caller observes it: either the
returned token string, or the message of the `Error` the function
throws. -/
inductive AuthResult where
  | token (t : String)
  | failure (msg : String)
deriving Repr, DecidableEq

/-- Refresh path of `getAccessToken` (the body of its `try` block plus
the outer `catch`): with missing credentials, with a non-ok token
response, or with a thrown transport error, every inner error is
caught by the outer `catch` and rethrown as the single generic
`Error('Failed to authenticate with PayPal')`; on success the cache is
replaced by the new token with `created_at := now`.  The result triple
is (caller-visible result, cache state after the call, number of
token-endpoint requests performed). -/
def refreshToken (cfg : Config) (cache : Option TokenCache) (now : Int)
    (exchange : HttpOutcome TokenResponse) :
    AuthResult × Option TokenCache × Nat :=
  if cfg.clientId = "" ∨ cfg.clientSecret = "" then
    (.failure "Failed to authenticate with PayPal", cache, 0)
  else
    match exchange with
    | .ok body =>
        (.token body.access_token,
         some ⟨body.access_token, body.expires_in, now⟩, 1)
    | .httpError _ => (.failure "Failed to authenticate with PayPal", cache, 1)
    | .transportFailure =>
        (.failure "Failed to authenticate with PayPal", cache, 1)

/-- `getAccessToken` of paypal.ts with the module-level cache threaded
explicitly.  A cached token is reused when
`now ≤ created_at + (expires_in - 60) * 1000` (the code computes
`isExpired` with a strict `>` and a 60-second safety margin);
otherwise the refresh path runs. -/
def getAccessToken (cfg : Config) (cache : Option TokenCache) (now : Int)
    (exchange : HttpOutcome TokenResponse) :
    AuthResult × Option TokenCache × Nat :=
  match cache with
  | some c =>
      if now > c.created_at + (c.expires_in - 60) * 1000 then
        refreshToken cfg cache now exchange
      else
        (.token c.access_token, some c, 0)
  | none => refreshToken cfg cache now exchange

/-- Monetary amount object of a capture record
(`value` and `currency_code`). -/
structure Amount where
  value : String
  currency_code : String
deriving Repr, DecidableEq

/-- One capture record inside `purchase_units[0].payments.captures`.
The `amount` field is optional because the code reads it with
`capture.amount?.value`. -/
structure CaptureRecord where
  id : String
  status : String
  amount : Option Amount
deriving Repr, DecidableEq

/-- The `payments` object of a purchase unit; an absent `captures`
array is modelled as the empty list (both give no first capture). -/
structure Payments where
  captures : List CaptureRecord
deriving Repr, DecidableEq

/-- One purchase unit; `payments` is optional because the code reads
it with `purchaseUnit?.payments?.captures?.[0]`. -/
structure PurchaseUnit where
  payments : Option Payments
deriving Repr, DecidableEq

/-- Parsed body of a capture-endpoint response: the order id, the
purchase units, and the optional `payer.email_address`. -/
structure CaptureResponse where
  id : String
  purchase_units : List PurchaseUnit
  payer_email : Option String
deriving Repr, DecidableEq

/-- The first purchase unit's first capture record, i.e. the value of
`captureData.purchase_units?.[0]?.payments?.captures?.[0]`. -/
def firstCapture (cd : CaptureResponse) : Option CaptureRecord :=
  (cd.purchase_units.head?.bind PurchaseUnit.payments).bind
    (fun p => p.captures.head?)

/-- Return shape of `capturePayPalOrder` in paypal.ts. -/
structure CaptureResult where
  success : Bool
  orderId : String
  captureId : Option String
  status : Option String
  payerEmail : Option String
  amount : Option String
  currency : Option String
deriving Repr, DecidableEq

/-- The single failure value `capturePayPalOrder` returns from its
`catch` block for every failing execution. -/
def captureFailure (orderID : String) : CaptureResult :=
  ⟨false, orderID, none, some "FAILED", none, none, none⟩

/-- `capturePayPalOrder` of paypal.ts.  Every thrown error (failed
token acquisition, non-ok capture response, transport failure, absent
first capture record, or a capture status other than COMPLETED) is
caught and mapped to `captureFailure orderID`; only a response whose
first capture record has status COMPLETED produces a success value. -/
def capturePayPalOrder (orderID : String) (auth : AuthResult)
    (resp : HttpOutcome CaptureResponse) : CaptureResult :=
  match auth with
  | .failure _ => captureFailure orderID
  | .token _ =>
      match resp with
      | .httpError _ => captureFailure orderID
      | .transportFailure => captureFailure orderID
      | .ok cd =>
          match firstCapture cd with
          | none => captureFailure orderID
          | some c =>
              if c.status = "COMPLETED" then
                ⟨true, cd.id, some c.id, some c.status, cd.payer_email,
                 c.amount.map Amount.value, c.amount.map Amount.currency_code⟩
              else captureFailure orderID

/-- `callRiskAPI` of paypal.ts.  `numericAmount` models
`parseFloat(amount)` and `randomValue` models the `Math.random()`
draw; the function approves automatically when the amount is at most
10.00 and otherwise approves exactly when the draw exceeds 0.05.  The
`orderID` argument is used only for logging in the source. -/
def callRiskAPI (orderID : String) (numericAmount : ℚ)
    (randomValue : ℚ) : Bool :=
  if numericAmount ≤ 10 then true
  else decide (randomValue > 5 / 100)

/-- `cancelPayPalOrder` of paypal.ts.  The PATCH call's outcome is
never surfaced: a failed token acquisition and a thrown transport
error are swallowed by the `catch`, and a non-ok response is only
logged, so the function always returns normally (it never throws). -/
def cancelPayPalOrder (auth : AuthResult) (resp : HttpOutcome Unit) :
    Except String Unit :=
  match auth with
  | .failure _ => .ok ()
  | .token _ =>
      match resp with
      | .ok _ => .ok ()
      | .httpError _ => .ok ()
      | .transportFailure => .ok ()

/-- Parsed body of a verify-webhook-signature response. -/
structure VerifyResponse where
  verification_status : String
deriving Repr, DecidableEq

/-- `verifyWebhookSignature` of paypal.ts: `true` exactly when the
verification endpoint answered ok with `verification_status` equal to
SUCCESS; a failed token acquisition, a non-ok response and a thrown
transport error all yield `false`.  The function is total with a
`Bool` codomain: no execution path propagates an exception. -/
def verifyWebhookSignature (auth : AuthResult)
    (resp : HttpOutcome VerifyResponse) : Bool :=
  match auth with
  | .failure _ => false
  | .token _ =>
      match resp with
      | .httpError _ => false
      | .transportFailure => false
      | .ok v => v.verification_status = "SUCCESS"

/-- Parsed body of the successful order-creation response (the code
only reads `orderData.id`). -/
structure OrderCreated where
  id : String
deriving Repr, DecidableEq

/-- `createPayPalOrder` of paypal.ts: returns the created order's id,
or throws; every inner error (failed token acquisition, non-ok
response, transport failure) is caught and rethrown as the generic
`Error('Failed to create PayPal order')`. -/
def createPayPalOrder (auth : AuthResult)
    (resp : HttpOutcome OrderCreated) : Except String String :=
  match auth with
  | .failure _ => .error "Failed to create PayPal order"
  | .token _ =>
      match resp with
      | .ok od => .ok od.id
      | .httpError _ => .error "Failed to create PayPal order"
      | .transportFailure => .error "Failed to create PayPal order"

/-- Checks a string against the route's amount regular expression
(one or more digits, optionally followed by a dot and exactly two
digits, anchored at both ends).  Because the character after the
digit run must be a dot or the end, the maximal digit prefix taken by
`takeWhile` is exactly the digit group of any match. -/
def matchesAmountFormat (s : String) : Bool :=
  let ds := s.data.takeWhile Char.isDigit
  let rest := s.data.dropWhile Char.isDigit
  (!ds.isEmpty) &&
    (match rest with
     | [] => true
     | '.' :: a :: b :: [] => a.isDigit && b.isDigit
     | _ => false)

/-- Parsed JSON body of a create-order request; each field is
optional because the route destructures an untyped object. -/
structure CreateBody where
  amount : Option String
  currency : Option String
  email : Option String
  description : Option String
deriving Repr, DecidableEq

/-- JSON response of the create-order route together with its HTTP
status code. -/
structure RouteResponse where
  status : Nat
  success : Bool
  error : Option String
  orderID : Option String
deriving Repr, DecidableEq

/-- Which outbound operations the create-order route performed:
whether `createPayPalOrder` was invoked, whether `callRiskAPI` was
invoked, and the order id passed to `cancelPayPalOrder` when it was
invoked. -/
structure RouteTrace where
  createCalled : Bool
  riskCalled : Bool
  cancelledOrder : Option String
deriving Repr, DecidableEq

/-- POST handler of src/app/api/paypal/create-order/route.ts.  The
request body is an `Except` (a parse failure carries the thrown
message and is answered with status 500 by the route's `catch`).
Validation: a missing or empty amount gives 400, an amount failing
the format regular expression gives 400, and a provided non-empty
email without an at-sign gives 400; nothing else (in particular not
the currency) is validated.  Then the order is created (a throw is
answered with 500), risk is assessed, and on denial the order is
cancelled best-effort and 403 is returned; on approval 200. -/
def createOrderPOST (body : Except String CreateBody)
    (createAuth : AuthResult) (createResp : HttpOutcome OrderCreated)
    (riskApproved : Bool) (cancelAuth : AuthResult)
    (cancelResp : HttpOutcome Unit) : RouteResponse × RouteTrace :=
  match body with
  | .error msg => (⟨500, false, some msg, none⟩, ⟨false, false, none⟩)
  | .ok b =>
      match b.amount with
      | none =>
          (⟨400, false, some "Amount is required", none⟩,
           ⟨false, false, none⟩)
      | some a =>
          if a = "" then
            (⟨400, false, some "Amount is required", none⟩,
             ⟨false, false, none⟩)
          else if !matchesAmountFormat a then
            (⟨400, false,
              some "Invalid amount format. Use format like \"10.00\"", none⟩,
             ⟨false, false, none⟩)
          else if (match b.email with
                   | some e => (e != "") && !(e.contains '@')
                   | none => false) then
            (⟨400, false, some "Invalid email format", none⟩,
             ⟨false, false, none⟩)
          else
            match createPayPalOrder createAuth createResp with
            | .error msg =>
                (⟨500, false, some msg, none⟩, ⟨true, false, none⟩)
            | .ok oid =>
                if riskApproved then
                  (⟨200, true, none, some oid⟩, ⟨true, true, none⟩)
                else
                  match cancelPayPalOrder cancelAuth cancelResp with
                  | .error msg =>
                      (⟨500, false, some msg, none⟩, ⟨true, true, some oid⟩)
                  | .ok _ =>
                      (⟨403, false,
                        some "Transaction not approved due to risk assessment",
                        none⟩,
                       ⟨true, true, some oid⟩)

/-- The five transmission metadata headers the webhook route reads
with `request.headers.get`; an absent header is `none`. -/
structure WebhookHeaders where
  transmissionId : Option String
  transmissionTime : Option String
  certUrl : Option String
  transmissionSig : Option String
  authAlgorithm : Option String
deriving Repr, DecidableEq

/-- JavaScript falsiness of a nullable header value: absent or the
empty string. -/
def isFalsy : Option String → Bool
  | none => true
  | some s => s = ""

/-- The route's missing-header condition: it tests exactly four of
the five headers it reads (`paypal-auth-algorithm` is read into a
variable but never tested). -/
def requiredMissing (h : WebhookHeaders) : Bool :=
  isFalsy h.transmissionId || isFalsy h.transmissionTime ||
    isFalsy h.certUrl || isFalsy h.transmissionSig

/-- Parsed webhook event body: the `event_type` discriminator and the
optional `resource` object, represented by its id. -/
structure WebhookEvent where
  event_type : String
  resource : Option String
deriving Repr, DecidableEq

/-- Caller-visible outcomes of the webhook route: 400 with a
missing-headers error, 401 with an invalid-signature error, 500 from
the `catch` block, and 200 with a success body. -/
inductive WebhookResponse where
  | missingHeaders
  | invalidSignature
  | processingError
  | success
deriving Repr, DecidableEq

/-- The event types whose dispatch arm dereferences
`webhookEvent.resource` without optional chaining, so that an absent
resource would throw and reach the `catch`. -/
def resourceEventTypes : List String :=
  ["CHECKOUT.ORDER.APPROVED", "PAYMENT.CAPTURE.COMPLETED",
   "PAYMENT.CAPTURE.REFUNDED", "PAYMENT.CAPTURE.REVERSED"]

/-- POST handler of src/app/api/paypal/webhook/route.ts with the
verifier's environment passed through.  The returned Bool records
whether `verifyWebhookSignature` was invoked.  Order of operations in
the source: header check, then body parse (`none` models a parse
throw), then signature verification, then event dispatch. -/
def webhookPOST (h : WebhookHeaders) (body : Option WebhookEvent)
    (auth : AuthResult) (vresp : HttpOutcome VerifyResponse) :
    WebhookResponse × Bool :=
  if requiredMissing h then (.missingHeaders, false)
  else
    match body with
    | none => (.processingError, false)
    | some ev =>
        if verifyWebhookSignature auth vresp then
          if resourceEventTypes.contains ev.event_type && ev.resource.isNone
          then (.processingError, true)
          else (.success, true)
        else (.invalidSignature, true)

/-- Concrete webhook headers carrying the four tested headers but not
`paypal-auth-algorithm`. -/
def headersNoAlgo : WebhookHeaders :=
  ⟨some "t-id", some "t-time", some "https://cert", some "t-sig", none⟩

/-- Concrete capture-response body of a duplicate capture whose
capture record does not carry the COMPLETED status. -/
def dupCaptureBody : CaptureResponse :=
  ⟨"ORD-3", [⟨some ⟨[⟨"CAP-1", "PENDING", none⟩]⟩⟩], none⟩

/-- C1: `capturePayPalOrder` reports success exactly when the first
purchase-unit's first capture record exists and its status equals
COMPLETED; every other outcome (absent record, any other status such
as PENDING, non-ok response, transport failure, failed token
acquisition) is reported as the failure value, never as a success. -/
theorem capture_success_iff (orderID : String) (auth : AuthResult)
    (resp : HttpOutcome CaptureResponse) :
    ((capturePayPalOrder orderID auth resp).success = true ↔
      ∃ t cd c, auth = AuthResult.token t ∧ resp = HttpOutcome.ok cd ∧
        firstCapture cd = some c ∧ c.status = "COMPLETED") ∧
    ((capturePayPalOrder orderID auth resp).success = true ∨
      capturePayPalOrder orderID auth resp = captureFailure orderID) := by
  cases auth with
  | failure m => simp [capturePayPalOrder, captureFailure]
  | token t =>
    cases resp with
    | httpError s => simp [capturePayPalOrder, captureFailure]
    | transportFailure => simp [capturePayPalOrder, captureFailure]
    | ok cd =>
      cases hc : firstCapture cd with
      | none => simp [capturePayPalOrder, hc, captureFailure]
      | some c =>
        by_cases hs : c.status = "COMPLETED"
        · simp [capturePayPalOrder, hc, hs, captureFailure]
        · simp [capturePayPalOrder, hc, hs, captureFailure]

/-- C7: `verifyWebhookSignature` returns `true` exactly when the
verification endpoint answered ok with verification status SUCCESS;
anything else, including a non-ok HTTP response, a transport failure
and a failed token acquisition, yields `false`.  The function is
total into `Bool`, so no exception reaches the caller. -/
theorem verify_webhook_boolean (auth : AuthResult)
    (resp : HttpOutcome VerifyResponse) :
    verifyWebhookSignature auth resp = true ↔
      ∃ t v, auth = AuthResult.token t ∧ resp = HttpOutcome.ok v ∧
        v.verification_status = "SUCCESS" := by
  cases auth with
  | failure m => simp [verifyWebhookSignature]
  | token t =>
    cases resp with
    | httpError s => simp [verifyWebhookSignature]
    | transportFailure => simp [verifyWebhookSignature]
    | ok v => simp [verifyWebhookSignature]

/-- C8: for every amount with 0 < a ≤ 10.00, the reference risk policy
`callRiskAPI` returns approve, for every value of the random draw. -/
theorem small_amount_auto_approved (orderID : String) (a r : ℚ)
    (h0 : 0 < a) (h10 : a ≤ 10) :
    callRiskAPI orderID a r = true := by
  unfold callRiskAPI
  exact if_pos h10

/-- Witness for C8 at the concrete amount 1 and draw 0. -/
theorem small_amount_auto_approved_witness :
    (0 : ℚ) < 1 ∧ (1 : ℚ) ≤ 10 ∧ callRiskAPI "ORD-W8" 1 0 = true :=
  ⟨by norm_num, by norm_num,
   small_amount_auto_approved "ORD-W8" 1 0 (by norm_num) (by norm_num)⟩

/-- C5 counterexample: the claim says a duplicate-capture response
without COMPLETED status is surfaced as a distinguishable
AlreadyCaptured error kind rather than a generic failure.  At these
concrete inputs the code returns for the duplicate-capture response
(both in its HTTP-422 form and as an ok body whose capture status is
PENDING) exactly the same generic failure value it returns for a
transport failure, so the caller cannot tell duplicate capture apart
from any other capture failure. -/
theorem capture_duplicate_counterexample :
    capturePayPalOrder "ORD-3" (.token "tok") (HttpOutcome.httpError 422) =
      capturePayPalOrder "ORD-3" (.token "tok")
        HttpOutcome.transportFailure ∧
    capturePayPalOrder "ORD-3" (.token "tok") (HttpOutcome.httpError 422) =
      captureFailure "ORD-3" ∧
    capturePayPalOrder "ORD-3" (.token "tok") (.ok dupCaptureBody) =
      captureFailure "ORD-3" :=
  ⟨rfl, rfl, rfl⟩

/-- C5 amended: a duplicate-capture response that does not carry the
COMPLETED status is reported as a failure (the fixed value with
success false and status FAILED), never as a success, but it is the
same generic failure value returned for every other capture error —
no AlreadyCaptured kind is distinguishable to the caller. -/
theorem capture_duplicate_generic (orderID t : String) (s : Nat)
    (cd : CaptureResponse) (c : CaptureRecord)
    (hc : firstCapture cd = some c) (hs : c.status ≠ "COMPLETED") :
    capturePayPalOrder orderID (.token t) (.httpError s) =
      captureFailure orderID ∧
    capturePayPalOrder orderID (.token t) (.ok cd) =
      captureFailure orderID ∧
    (captureFailure orderID).success = false ∧
    capturePayPalOrder orderID (.token t) (.httpError s) =
      capturePayPalOrder orderID (.token t) HttpOutcome.transportFailure := by
  refine ⟨rfl, ?_, rfl, rfl⟩
  simp [capturePayPalOrder, hc, hs]

/-- Witness for C5 amended at the concrete duplicate-capture body. -/
theorem capture_duplicate_generic_witness :
    capturePayPalOrder "ORD-4" (.token "tok") (.ok dupCaptureBody) =
      captureFailure "ORD-4" :=
  (capture_duplicate_generic "ORD-4" "tok" 422 dupCaptureBody
    ⟨"CAP-1", "PENDING", none⟩ rfl (by decide)).2.1

/-- C6 counterexample: the claim says a caller can tell the three
failure causes of `getAccessToken` apart from the returned error.  At
these concrete inputs the three causes — missing credentials,
provider rejection with HTTP 401, and transport failure — all return
the identical generic error, so they are not distinguishable. -/
theorem auth_errors_indistinguishable_counterexample :
    (getAccessToken ⟨"", ""⟩ none 0 (.ok ⟨"t", 3600⟩)).1 =
      (getAccessToken ⟨"id", "sec"⟩ none 0 (.httpError 401)).1 ∧
    (getAccessToken ⟨"id", "sec"⟩ none 0 (.httpError 401)).1 =
      (getAccessToken ⟨"id", "sec"⟩ none 0 .transportFailure).1 ∧
    (getAccessToken ⟨"", ""⟩ none 0 (.ok ⟨"t", 3600⟩)).1 =
      AuthResult.failure "Failed to authenticate with PayPal" := by
  refine ⟨?_, ?_, ?_⟩ <;> decide

/-- C6 amended: `getAccessToken` fails on missing credentials, on a
non-success token-endpoint status, and on transport failure, but
every failure surfaces as the single generic error message; the
result is always either a token or that one failure value, so the
caller can distinguish success from failure but not the failure
causes. -/
theorem auth_single_error_kind (cfg : Config) (cache : Option TokenCache)
    (now : Int) (exch : HttpOutcome TokenResponse) :
    ((∃ t, (getAccessToken cfg cache now exch).1 = AuthResult.token t) ∨
      (getAccessToken cfg cache now exch).1 =
        AuthResult.failure "Failed to authenticate with PayPal") ∧
    (getAccessToken cfg none now .transportFailure).1 =
      AuthResult.failure "Failed to authenticate with PayPal" ∧
    (getAccessToken cfg none now (.httpError 500)).1 =
      AuthResult.failure "Failed to authenticate with PayPal" ∧
    (getAccessToken ⟨"", cfg.clientSecret⟩ none now exch).1 =
      AuthResult.failure "Failed to authenticate with PayPal" := by
  refine ⟨?_, ?_, ?_, ?_⟩
  · cases cache with
    | none =>
      by_cases hcred : cfg.clientId = "" ∨ cfg.clientSecret = ""
      · right; simp [getAccessToken, refreshToken, hcred]
      · cases exch with
        | ok body =>
          left
          exact ⟨body.access_token,
            by simp [getAccessToken, refreshToken, hcred]⟩
        | httpError s => right; simp [getAccessToken, refreshToken, hcred]
        | transportFailure =>
          right; simp [getAccessToken, refreshToken, hcred]
    | some c =>
      by_cases hexp : c.created_at + (c.expires_in - 60) * 1000 < now
      · by_cases hcred : cfg.clientId = "" ∨ cfg.clientSecret = ""
        · right; simp [getAccessToken, refreshToken, hexp, hcred]
        · cases exch with
          | ok body =>
            left
            exact ⟨body.access_token,
              by simp [getAccessToken, refreshToken, hexp, hcred]⟩
          | httpError s =>
            right; simp [getAccessToken, refreshToken, hexp, hcred]
          | transportFailure =>
            right; simp [getAccessToken, refreshToken, hexp, hcred]
      · left; exact ⟨c.access_token, by simp [getAccessToken, hexp]⟩
  · by_cases hcred : cfg.clientId = "" ∨ cfg.clientSecret = "" <;>
      simp [getAccessToken, refreshToken, hcred]
  · by_cases hcred : cfg.clientId = "" ∨ cfg.clientSecret = "" <;>
      simp [getAccessToken, refreshToken, hcred]
  · simp [getAccessToken, refreshToken]

/-- C4: after a first call refreshes the cache at time `now₁`, a
second call at a time `now₂` still inside the 60-second safety margin
returns the cached token with zero token-endpoint requests and leaves
the cache unchanged (whatever the network would have answered), while
a second call after expiry performs exactly one token-endpoint
request and replaces the cache with the new token and its expiry data
stamped at `now₂`. -/
theorem token_cache_sequential (cfg : Config) (now₁ now₂ : Int)
    (body body₂ : TokenResponse) (exch₂ : HttpOutcome TokenResponse)
    (hid : cfg.clientId ≠ "") (hsec : cfg.clientSecret ≠ "") :
    (getAccessToken cfg none now₁ (.ok body) =
      (.token body.access_token,
       some ⟨body.access_token, body.expires_in, now₁⟩, 1)) ∧
    (now₂ ≤ now₁ + (body.expires_in - 60) * 1000 →
      getAccessToken cfg (some ⟨body.access_token, body.expires_in, now₁⟩)
          now₂ exch₂ =
        (.token body.access_token,
         some ⟨body.access_token, body.expires_in, now₁⟩, 0)) ∧
    (now₂ > now₁ + (body.expires_in - 60) * 1000 →
      getAccessToken cfg (some ⟨body.access_token, body.expires_in, now₁⟩)
          now₂ (.ok body₂) =
        (.token body₂.access_token,
         some ⟨body₂.access_token, body₂.expires_in, now₂⟩, 1)) := by
  have hcred : ¬(cfg.clientId = "" ∨ cfg.clientSecret = "") := by
    push_neg
    exact ⟨hid, hsec⟩
  refine ⟨?_, ?_, ?_⟩
  · simp [getAccessToken, refreshToken, hcred]
  · intro h2
    have hlt : ¬(now₁ + (body.expires_in - 60) * 1000 < now₂) :=
      not_lt.mpr h2
    simp [getAccessToken, hlt]
  · intro h3
    simp [getAccessToken, refreshToken, hcred, h3]

/-- Witness for C4: with a token cached at time 0 with lifetime 3600
seconds, a call at time 1000 hits the cache with zero requests even
though the network would have answered with an error, and a call at
time 4000000 (past the 3540000-millisecond margin bound) refreshes
with exactly one request and replaces the cache. -/
theorem token_cache_sequential_witness :
    (getAccessToken ⟨"id", "secret"⟩ (some ⟨"tokA", 3600, 0⟩) 1000
        (.httpError 500) =
      (.token "tokA", some ⟨"tokA", 3600, 0⟩, 0)) ∧
    (getAccessToken ⟨"id", "secret"⟩ (some ⟨"tokA", 3600, 0⟩) 4000000
        (.ok ⟨"tokB", 3600⟩) =
      (.token "tokB", some ⟨"tokB", 3600, 4000000⟩, 1)) :=
  ⟨(token_cache_sequential ⟨"id", "secret"⟩ 0 1000 ⟨"tokA", 3600⟩
      ⟨"tokB", 3600⟩ (.httpError 500) (by decide) (by decide)).2.1
      (by decide),
   (token_cache_sequential ⟨"id", "secret"⟩ 0 4000000 ⟨"tokA", 3600⟩
      ⟨"tokB", 3600⟩ (.ok ⟨"tokB", 3600⟩) (by decide) (by decide)).2.2
      (by decide)⟩

/-- C9: whenever `getAccessToken` fails, the token cache after the
call is exactly the cache before the call: the cache is replaced only
on a successful token exchange, so a failed refresh never clobbers or
clears a previously cached token. -/
theorem failed_refresh_preserves_cache (cfg : Config)
    (cache : Option TokenCache) (now : Int)
    (exch : HttpOutcome TokenResponse) (msg : String)
    (hfail : (getAccessToken cfg cache now exch).1 = AuthResult.failure msg) :
    (getAccessToken cfg cache now exch).2.1 = cache := by
  cases cache with
  | none =>
    by_cases hcred : cfg.clientId = "" ∨ cfg.clientSecret = ""
    · simp [getAccessToken, refreshToken, hcred]
    · cases exch with
      | ok body => simp [getAccessToken, refreshToken, hcred] at hfail
      | httpError s => simp [getAccessToken, refreshToken, hcred]
      | transportFailure => simp [getAccessToken, refreshToken, hcred]
  | some c =>
    by_cases hexp : c.created_at + (c.expires_in - 60) * 1000 < now
    · by_cases hcred : cfg.clientId = "" ∨ cfg.clientSecret = ""
      · simp [getAccessToken, refreshToken, hexp, hcred]
      · cases exch with
        | ok body =>
          simp [getAccessToken, refreshToken, hexp, hcred] at hfail
        | httpError s => simp [getAccessToken, refreshToken, hexp, hcred]
        | transportFailure =>
          simp [getAccessToken, refreshToken, hexp, hcred]
    · simp [getAccessToken, hexp] at hfail

/-- Witness for C9: an expired cached token plus missing credentials
make the call fail, and the previously cached token survives. -/
theorem failed_refresh_preserves_cache_witness :
    (getAccessToken ⟨"", ""⟩ (some ⟨"old", 0, 0⟩) 1 .transportFailure).2.1 =
      some ⟨"old", 0, 0⟩ :=
  failed_refresh_preserves_cache ⟨"", ""⟩ (some ⟨"old", 0, 0⟩) 1
    .transportFailure "Failed to authenticate with PayPal" (by decide)

/-- Helper: `cancelPayPalOrder` returns normally on every input —
every failure of the PATCH call is swallowed inside the function. -/
theorem cancelPayPalOrder_ok (a : AuthResult) (r : HttpOutcome Unit) :
    cancelPayPalOrder a r = .ok () := by
  cases a with
  | failure m => rfl
  | token t => cases r <;> rfl

/-- C2 counterexample: the claim requires rejection when any one of
the five transmission headers is absent, with verification attempted
only when all five are present.  With the concrete headers that carry
the four tested values but no `paypal-auth-algorithm`, the handler
still invokes the verification endpoint (second component `true`) and
accepts the event, refuting the claim. -/
theorem webhook_fifth_header_counterexample :
    headersNoAlgo.authAlgorithm = none ∧
    (webhookPOST headersNoAlgo
        (some ⟨"PAYMENT.CAPTURE.COMPLETED", some "cap-1"⟩)
        (.token "tok") (.ok ⟨"SUCCESS"⟩)).2 = true ∧
    (webhookPOST headersNoAlgo
        (some ⟨"PAYMENT.CAPTURE.COMPLETED", some "cap-1"⟩)
        (.token "tok") (.ok ⟨"SUCCESS"⟩)).1 = WebhookResponse.success := by
  refine ⟨rfl, ?_, ?_⟩ <;> decide

/-- C2 amended: the webhook handler requires only four of the five
transmission headers it reads (`paypal-auth-algorithm` is never
tested).  It answers missing-headers exactly when one of those four
is absent or empty, and the verification endpoint is invoked exactly
when all four are present and the body parses. -/
theorem webhook_required_headers_gate (h : WebhookHeaders)
    (body : Option WebhookEvent) (auth : AuthResult)
    (vresp : HttpOutcome VerifyResponse) :
    ((webhookPOST h body auth vresp).2 =
      (!requiredMissing h && body.isSome)) ∧
    ((webhookPOST h body auth vresp).1 = WebhookResponse.missingHeaders ↔
      requiredMissing h = true) := by
  cases hm : requiredMissing h with
  | true => simp [webhookPOST, hm]
  | false =>
    cases body with
    | none => simp [webhookPOST, hm]
    | some ev =>
      cases hv : verifyWebhookSignature auth vresp with
      | false => simp [webhookPOST, hm, hv]
      | true =>
        by_cases hr : ev.event_type ∈ resourceEventTypes ∧ ev.resource = none
        · simp [webhookPOST, hm, hv, hr]
        · simp [webhookPOST, hm, hv, hr]

/-- C3: when the risk evaluation denies a validly created order, the
create-order route passes the order id to `cancelPayPalOrder` and
answers success false with the risk-rejection error at HTTP status
403, distinct from the 400 used for validation errors — and this
outcome is one fixed value for every possible outcome of the
cancellation call (`cancelAuth` and `cancelResp` range over all
cancellation environments, including failing ones). -/
theorem risk_denied_flow (b : CreateBody) (a tk oid : String)
    (cancelAuth : AuthResult) (cancelResp : HttpOutcome Unit)
    (hA : b.amount = some a) (hne : a ≠ "")
    (hfmt : matchesAmountFormat a = true)
    (hEm : ∀ e, b.email = some e → e = "" ∨ e.contains '@' = true) :
    createOrderPOST (.ok b) (.token tk) (.ok ⟨oid⟩) false
        cancelAuth cancelResp =
      (⟨403, false,
        some "Transaction not approved due to risk assessment", none⟩,
       ⟨true, true, some oid⟩) ∧
    (403 : Nat) ≠ 400 := by
  refine ⟨?_, by decide⟩
  rcases b with ⟨am, cur, em, de⟩
  have hA' : am = some a := hA
  subst hA'
  cases em with
  | none =>
    simp [createOrderPOST, hne, hfmt, createPayPalOrder,
      cancelPayPalOrder_ok]
  | some e =>
    have he := hEm e rfl
    rcases he with he | he
    · subst he
      simp [createOrderPOST, hne, hfmt, createPayPalOrder,
        cancelPayPalOrder_ok]
    · simp [createOrderPOST, hne, hfmt, he, createPayPalOrder,
        cancelPayPalOrder_ok]

/-- Witness for C3: amount 500.00 with the risk evaluator denying and
the cancellation call failing at the transport layer; the route still
answers the fixed 403 risk-rejection response and records the
cancellation attempt for the created order. -/
theorem risk_denied_flow_witness :
    createOrderPOST (.ok ⟨some "500.00", some "USD", none, none⟩)
        (.token "tokW") (.ok ⟨"ORD-1"⟩) false (.failure "boom")
        .transportFailure =
      (⟨403, false,
        some "Transaction not approved due to risk assessment", none⟩,
       ⟨true, true, some "ORD-1"⟩) :=
  (risk_denied_flow ⟨some "500.00", some "USD", none, none⟩ "500.00"
    "tokW" "ORD-1" (.failure "boom") .transportFailure rfl (by decide)
    (by decide) (fun e h => Option.noConfusion h)).1

/-- C10: the create-order route answers 400 exactly when the amount
is absent or empty, the amount fails the format pattern, or a
provided non-empty email lacks an at-sign; the currency is never
checked, and the zero amounts "0" and "0.00" pass validation and
proceed to the order-creation call (for every currency value and
every downstream environment). -/
theorem create_order_validation (b : CreateBody) (cAuth : AuthResult)
    (cResp : HttpOutcome OrderCreated) (risk : Bool)
    (canAuth : AuthResult) (canResp : HttpOutcome Unit) :
    ((createOrderPOST (.ok b) cAuth cResp risk canAuth canResp).1.status
        = 400 ↔
      (b.amount = none ∨ b.amount = some "" ∨
        (∃ a, b.amount = some a ∧ matchesAmountFormat a = false) ∨
        (∃ e, b.email = some e ∧ e ≠ "" ∧ e.contains '@' = false))) ∧
    matchesAmountFormat "0" = true ∧
    matchesAmountFormat "0.00" = true ∧
    (createOrderPOST (.ok ⟨some "0", b.currency, none, none⟩) cAuth cResp
        risk canAuth canResp).2.createCalled = true ∧
    (createOrderPOST (.ok ⟨some "0.00", b.currency, none, none⟩) cAuth
        cResp risk canAuth canResp).2.createCalled = true := by
  have h0ne : ("0" : String) ≠ "" := by decide
  have h0f : matchesAmountFormat "0" = true := by decide
  have h00ne : ("0.00" : String) ≠ "" := by decide
  have h00f : matchesAmountFormat "0.00" = true := by decide
  refine ⟨?_, h0f, h00f, ?_, ?_⟩
  · rcases b with ⟨am, cur, em, de⟩
    cases am with
    | none => simp [createOrderPOST]
    | some a =>
      by_cases hne : a = ""
      · subst hne
        simp [createOrderPOST]
      · cases hfmt : matchesAmountFormat a with
        | false => simp [createOrderPOST, hne, hfmt]
        | true =>
          cases em with
          | none =>
            cases hco : createPayPalOrder cAuth cResp with
            | error m => simp [createOrderPOST, hne, hfmt, hco]
            | ok oid =>
              cases risk with
              | true => simp [createOrderPOST, hne, hfmt, hco]
              | false =>
                simp [createOrderPOST, hne, hfmt, hco,
                  cancelPayPalOrder_ok]
          | some e =>
            by_cases he : e = ""
            · subst he
              cases hco : createPayPalOrder cAuth cResp with
              | error m => simp [createOrderPOST, hne, hfmt, hco]
              | ok oid =>
                cases risk with
                | true => simp [createOrderPOST, hne, hfmt, hco]
                | false =>
                  simp [createOrderPOST, hne, hfmt, hco,
                    cancelPayPalOrder_ok]
            · cases hct : e.contains '@' with
              | false => simp [createOrderPOST, hne, hfmt, he, hct]
              | true =>
                cases hco : createPayPalOrder cAuth cResp with
                | error m =>
                  simp [createOrderPOST, hne, hfmt, he, hct, hco]
                | ok oid =>
                  cases risk with
                  | true =>
                    simp [createOrderPOST, hne, hfmt, he, hct, hco]
                  | false =>
                    simp [createOrderPOST, hne, hfmt, he, hct, hco,
                      cancelPayPalOrder_ok]
  · cases hco : createPayPalOrder cAuth cResp with
    | error m => simp [createOrderPOST, h0ne, h0f, hco]
    | ok oid =>
      cases risk with
      | true => simp [createOrderPOST, h0ne, h0f, hco]
      | false =>
        simp [createOrderPOST, h0ne, h0f, hco, cancelPayPalOrder_ok]
  · cases hco : createPayPalOrder cAuth cResp with
    | error m => simp [createOrderPOST, h00ne, h00f, hco]
    | ok oid =>
      cases risk with
      | true => simp [createOrderPOST, h00ne, h00f, hco]
      | false =>
        simp [createOrderPOST, h00ne, h00f, hco, cancelPayPalOrder_ok]

end Paypal
